import Mathlib

/-!
Verification of the decision-support derivation layer of the breast-cancer
dashboard: the metrics aggregation and ranking code of
src/breast-cancer-dashboard/src/pages/Overview.jsx and Metrics.jsx, the
synthetic patient samplers of src/unnamed/part_000 (autoFillFromDistribution)
and src/breast-cancer-dashboard/src/pages/SignUp.jsx (autoFillRealisticVaried,
in the Predict page bundled in that file), the access guard of
src/breast-cancer-dashboard/src/auth/ProtectedRoute.jsx, and the bulk-load
effects of the Predict and Overview pages.

JavaScript numbers are embedded as exact rationals (and as reals for the
Gaussian sampler, whose source uses sqrt/log/cos); confusion counts supplied
by the backend are naturals where a claim quantifies over counts.
-/

namespace Dashboard

/-- A per-model metrics record as served by GET /metrics and consumed by
Overview.jsx: scalar metrics plus confusion counts, any field possibly
absent (undefined), and an error marker for models that failed evaluation. -/
structure MetricsRecord where
  error : Bool := false
  auc : Option ℚ := none
  accuracy : Option ℚ := none
  tn : Option ℚ := none
  fp : Option ℚ := none
  fn : Option ℚ := none
  tp : Option ℚ := none
deriving DecidableEq, Repr

/-- Overview.jsx lines 119-127: recall (sensitivity). The source reads
tp and fn with a null-coalescing default, returns null when either is
missing, computes denom = tp + fn, returns null when denom is falsy (zero),
else tp / denom. -/
def recallOf (m : MetricsRecord) : Option ℚ :=
  match m.tp, m.fn with
  | some tp, some fn =>
      let denom := tp + fn
      if denom = 0 then none else some (tp / denom)
  | _, _ => none

/-- Overview.jsx lines 129-137: specificity (selectivity), tn / (tn + fp),
null when a count is missing or the denominator is zero. -/
def specificityOf (m : MetricsRecord) : Option ℚ :=
  match m.tn, m.fp with
  | some tn, some fp =>
      let denom := tn + fp
      if denom = 0 then none else some (tn / denom)
  | _, _ => none

/-- Overview.jsx lines 152-160: false-negative rate, fn / (fn + tp),
null when a count is missing or the denominator is zero. -/
def fnRateOf (m : MetricsRecord) : Option ℚ :=
  match m.fn, m.tp with
  | some fn, some tp =>
      let denom := fn + tp
      if denom = 0 then none else some (fn / denom)
  | _, _ => none

/-- Overview.jsx lines 164-165: severity classification of the
false-negative-rate banner. -/
def fnSeverity (fnRate : Option ℚ) : String :=
  match fnRate with
  | none => "unknown"
  | some q => if q = 0 then "safe" else if q ≤ 1/50 then "warn" else "bad"

/-- A full confusion-count record with all four counts present, counts cast
from naturals (the backend serves test-set counts). -/
def mkCounts (tn fp fn tp : ℕ) : MetricsRecord :=
  { tn := some (tn : ℚ), fp := some (fp : ℚ), fn := some (fn : ℚ), tp := some (tp : ℚ) }

/-- The false-negative rate of natural confusion counts, as Overview.jsx
derives it. -/
def fnRateN (fn tp : ℕ) : Option ℚ :=
  fnRateOf { fn := some (fn : ℚ), tp := some (tp : ℚ) }

/-! Model ranking, Overview.jsx lines 28-57 and Metrics.jsx lines 394-400. -/

/-- Overview.jsx lines 28-31: the two deployed models and their display
names. -/
def DEPLOYED_MODELS : List (String × String) :=
  [("k-nn_(optimized)", "L2NN (Euclidean)"), ("random_forest", "Random Forest")]

/-- Display name of a deployed model id, none when the id is not deployed. -/
def deployedName (id : String) : Option String :=
  (DEPLOYED_MODELS.find? (fun p => p.1 == id)).map Prod.snd

/-- Overview.jsx lines 35-37: keep only entries of deployed models whose
value is present and carries no error marker. The metrics object is a list
of key-value pairs in insertion order, values possibly null. -/
def eligibleEntries (metricsObj : List (String × Option MetricsRecord)) :
    List (String × MetricsRecord) :=
  metricsObj.filterMap fun p =>
    match p.2 with
    | some m => if (deployedName p.1).isSome && !m.error then some (p.1, m) else none
    | none => none

/-- AUC sort key with the source's null-coalescing default of -1
(Overview.jsx lines 45-46). -/
def aucKey (m : MetricsRecord) : ℚ := m.auc.getD (-1)

/-- Accuracy sort key with the source's null-coalescing default of -1
(Overview.jsx lines 48-49). -/
def accKey (m : MetricsRecord) : ℚ := m.accuracy.getD (-1)

/-- The total preorder realised by the comparator of Overview.jsx lines
42-51: a precedes b when the comparator is nonpositive, that is when b's
AUC is smaller, or the AUCs tie and b's accuracy is not larger. -/
def bestLe (a b : String × MetricsRecord) : Prop :=
  aucKey b.2 < aucKey a.2 ∨ (aucKey b.2 = aucKey a.2 ∧ accKey b.2 ≤ accKey a.2)

instance : DecidableRel bestLe := fun a b => by
  unfold bestLe; exact inferInstance

instance : IsTotal (String × MetricsRecord) bestLe where
  total a b := by
    unfold bestLe
    rcases lt_trichotomy (aucKey a.2) (aucKey b.2) with h | h | h
    · exact Or.inr (Or.inl h)
    · rcases le_total (accKey a.2) (accKey b.2) with h2 | h2
      · exact Or.inr (Or.inr ⟨h, h2⟩)
      · exact Or.inl (Or.inr ⟨h.symm, h2⟩)
    · exact Or.inl (Or.inl h)

instance : IsTrans (String × MetricsRecord) bestLe where
  trans a b c hab hbc := by
    unfold bestLe at *
    rcases hab with h1 | ⟨h1, h1'⟩ <;> rcases hbc with h2 | ⟨h2, h2'⟩
    · exact Or.inl (lt_trans h2 h1)
    · exact Or.inl (h2 ▸ h1)
    · exact Or.inl (h1 ▸ h2)
    · exact Or.inr ⟨h2.trans h1, h2'.trans h1'⟩

/-- The best-model pick of Overview.jsx lines 33-57: id, forced display
name and the winning record. -/
structure BestModel where
  id : String
  name : String
  metrics : MetricsRecord
deriving DecidableEq, Repr

/-- Overview.jsx pickBestModel: filter to eligible entries, stable-sort by
the AUC-then-accuracy comparator, take the first entry; null when no entry
survives the filter. This one value feeds both the headline best-AUC and
best-accuracy KPI cards and the Recommended model card of the Overview
page. -/
def pickBestModel (metricsObj : List (String × Option MetricsRecord)) :
    Option BestModel :=
  match List.insertionSort bestLe (eligibleEntries metricsObj) with
  | [] => none
  | e :: _ => some { id := e.1, name := (deployedName e.1).getD "", metrics := e.2 }

/-- A row of the evaluation report consumed by Metrics.jsx. -/
structure EvalRow where
  model_id : String
  fnr : Option ℚ := none
  auc : Option ℚ := none
deriving DecidableEq, Repr

/-- Metrics.jsx lines 394-400: the recommended row is the row whose id
equals the report's declared recommended_model_id, else the first row,
else null. No client-side ranking is performed. -/
def recommendedRow (rows : List EvalRow) (rid : Option String) : Option EvalRow :=
  match (match rid with
         | some s => rows.find? (fun r => r.model_id == s)
         | none => none) with
  | some r => some r
  | none => rows.head?

/-- False-negative-rate sort key for the specification's policy (ii),
derived from the record's confusion counts; records without a defined rate
sort last (key 1 exceeds every defined rate). -/
def fnrKey (m : MetricsRecord) : ℚ := (fnRateOf m).getD 1

/-- Modelled from the spec: ranking policy (ii) of section 4.2 — rank the
non-error records by FNR ascending (fewer missed positives is better),
tie-broken by AUC descending. Used only to compare the specified
recommended-model policy against the code's pickBestModel. -/
def specPolicyIILe (a b : String × MetricsRecord) : Prop :=
  fnrKey a.2 < fnrKey b.2 ∨ (fnrKey a.2 = fnrKey b.2 ∧ aucKey b.2 ≤ aucKey a.2)

instance : DecidableRel specPolicyIILe := fun a b => by
  unfold specPolicyIILe; exact inferInstance

/-- Modelled from the spec: the recommended model under policy (ii) — the
id ranked first by FNR ascending then AUC descending over the eligible
records. -/
def specRecommendedByFnr (metricsObj : List (String × Option MetricsRecord)) :
    Option String :=
  (List.insertionSort specPolicyIILe (eligibleEntries metricsObj)).head?.map Prod.fst

/-- A metrics record on which the two ranking policies disagree: highest
AUC but a worse false-negative rate. -/
def knnRec : MetricsRecord :=
  { auc := some (99/100), accuracy := some (9/10), fn := some 10, tp := some 90 }

/-- A metrics record with the lowest false-negative rate but a lower AUC. -/
def rfRec : MetricsRecord :=
  { auc := some (19/20), accuracy := some (19/20), fn := some 0, tp := some 100 }

/-- A concrete metrics object over the two deployed models on which the
AUC-first and the FNR-first ranking policies pick different models. -/
def c2metrics : List (String × Option MetricsRecord) :=
  [("k-nn_(optimized)", some knnRec), ("random_forest", some rfRec)]

/-! Access guard, src/breast-cancer-dashboard/src/auth/ProtectedRoute.jsx
and AuthContext.jsx (bundled in the same file). -/

/-- AuthContext ROLE_ACCESS: the role-to-route allow-lists; every other
role (including a null or corrupted stored role) gets the JS fallback of
the empty list. -/
def ROLE_ACCESS (role : Option String) : List String :=
  if role = some "scientist" then ["/overview", "/predict", "/explainability"]
  else if role = some "data_scientist" then
    ["/overview", "/predict", "/explainability", "/metrics"]
  else []

/-- A browser session: bearer token and role as stored; isAuthed is the
presence of the token. -/
structure Session where
  token : Option String
  role : Option String
deriving DecidableEq, Repr

/-- Outcome of a protected-route request. -/
inductive GuardResult where
  | render
  | redirectSignin (remembered : String)
  | redirectOverview
deriving DecidableEq, Repr

/-- ProtectedRoute.jsx lines 5-21: no token redirects to /signin
remembering the requested path; a role whose allow-list excludes the path
redirects to /overview; otherwise the children render. -/
def protectedRoute (s : Session) (path : String) : GuardResult :=
  if s.token.isNone then .redirectSignin path
  else if (ROLE_ACCESS s.role).contains path then .render
  else .redirectOverview

/-- SignIn onSubmit (Overview.jsx bundle, lines 500-514): after login the
session navigates to loc.state?.from or, when absent or falsy (the empty
string), to /overview. -/
def loginDest (remembered : Option String) : String :=
  match remembered with
  | some s => if s = "" then "/overview" else s
  | none => "/overview"

/-- SignUp.jsx onSubmit lines 28-41: after signup the session always
navigates to /overview, whatever path was originally requested. -/
def signupDest (_remembered : Option String) : String := "/overview"

/-! Bulk load: the init effect of the Predict page (SignUp.jsx bundle,
lines 360-402) and the load effect of Overview.jsx (lines 67-84). -/

/-- A model registry entry from GET /models. -/
structure ModelInfo where
  name : String
deriving DecidableEq, Repr

/-- Per-feature summary statistics from GET /feature-ranges, every field
optional. -/
structure FeatStat where
  mean : Option ℚ := none
  std : Option ℚ := none
  min : Option ℚ := none
  max : Option ℚ := none
deriving DecidableEq, Repr

/-- The state the Predict page's init effect commits on success. -/
structure PredictInitState where
  models : List (String × ModelInfo)
  features : List String
  metrics : List (String × Option MetricsRecord)
  featureRanges : List (String × FeatStat)
  datasetInfo : List (String × String)
  evalTable : List EvalRow
  selectedModelId : Option String
  patientData : List (String × ℚ)
  errorMsg : String
deriving DecidableEq, Repr

/-- Outcome of the init effect: either the catch branch ran (an error
message is shown and no data state is committed) or the full state was
committed. -/
inductive InitOutcome where
  | failed (msg : String)
  | loaded (st : PredictInitState)
deriving DecidableEq, Repr

/-- True when the load was aborted by the catch branch. -/
def InitOutcome.isAborted : InitOutcome → Bool
  | .failed _ => true
  | .loaded _ => false

/-- SignUp.jsx lines 352-358: keep only keys of deployed models. -/
def filterToDeployed {α : Type} (obj : List (String × α)) : List (String × α) :=
  obj.filter fun p => (deployedName p.1).isSome

/-- The Predict page's init effect: Promise.all over six feeds, of which
only dataset-info and evaluation-table carry a catch fallback (to the
empty object and the empty array). A failure of models, features, metrics
or feature-ranges rejects the whole Promise.all, so the catch branch runs
and nothing is committed; otherwise the state is committed wholesale, the
selected model defaulting to the first deployed model id and the patient
record to feature-keyed zeros. -/
def runPredictInit
    (m : Except String (List (String × ModelInfo)))
    (feat : Except String (List String))
    (met : Except String (List (String × Option MetricsRecord)))
    (ranges : Except String (List (String × FeatStat)))
    (ds : Except String (List (String × String)))
    (ev : Except String (List EvalRow)) : InitOutcome :=
  match m, feat, met, ranges with
  | .ok m, .ok feat, .ok met, .ok ranges =>
      let models2 := filterToDeployed m
      .loaded
        { models := models2
          features := feat
          metrics := filterToDeployed met
          featureRanges := ranges
          datasetInfo := ds.toOption.getD []
          evalTable := ev.toOption.getD []
          selectedModelId := models2.head?.map Prod.fst
          patientData := feat.map fun f => (f, 0)
          errorMsg := "" }
  | .error e, _, _, _ => .failed e
  | _, .error e, _, _ => .failed e
  | _, _, .error e, _ => .failed e
  | _, _, _, .error e => .failed e

/-- Operational telemetry from GET /monitoring/summary. -/
structure MonitoringSummary where
  predictions_today : Option ℚ := none
  avg_latency_ms : Option ℚ := none
deriving DecidableEq, Repr

/-- Outcome of the Overview load effect. -/
inductive OverviewOutcome where
  | failed (msg : String)
  | loaded (datasetInfo : List (String × String))
      (metrics : List (String × Option MetricsRecord))
      (monitoring : Option MonitoringSummary)
deriving DecidableEq, Repr

/-- Overview.jsx lines 67-84: Promise.all over dataset-info, metrics and
monitoring; only the monitoring feed carries a catch fallback (to null), a
failure of dataset-info or metrics runs the catch branch and commits
nothing but the error message. -/
def runOverviewLoad
    (ds : Except String (List (String × String)))
    (met : Except String (List (String × Option MetricsRecord)))
    (mon : Except String MonitoringSummary) : OverviewOutcome :=
  match ds, met with
  | .ok ds, .ok met => .loaded ds met mon.toOption
  | .error e, _ => .failed e
  | _, .error e => .failed e

/-! Severity-biased uniform fill: autoFillRealisticVaried of the Predict
page (SignUp.jsx bundle, lines 440-480). Random draws are injected: the
branch coin and the magnitude draw for the severity, and one jitter draw
per feature index. -/

/-- A prediction as returned by POST /predict. -/
structure Prediction where
  prediction : ℤ
  probabilities : List ℚ := []
deriving DecidableEq, Repr

/-- The Predict page state the fill reads and writes. -/
structure PredictPageState where
  features : List String
  featureRanges : List (String × FeatStat)
  selectedModelId : Option String := none
  patientData : List (String × ℚ) := []
  prediction : Option Prediction := none
  errorMsg : String := ""
deriving DecidableEq, Repr

/-- JavaScript toFixed(d) rounding: the integer n with n / 10 ^ d closest
to x, ties toward the larger n, hence the floor of x * 10 ^ d + 1/2. -/
def qToFixed (d : ℕ) (x : ℚ) : ℚ := (⌊x * 10 ^ d + 1/2⌋ : ℚ) / 10 ^ d

/-- The fill's display rounding: 4 decimal places when the magnitude is
below 10, else 2 (SignUp.jsx lines 473-476). -/
def qDisplayRound (v : ℚ) : ℚ := if |v| < 10 then qToFixed 4 v else qToFixed 2 v

/-- Feature statistics lookup in the feature-ranges object. -/
def lookupStat (ranges : List (String × FeatStat)) (f : String) : Option FeatStat :=
  (ranges.find? fun p => p.1 == f).map Prod.snd

/-- SignUp.jsx lines 452-455: the per-invocation severity scalar — with
the branch coin below 1/2, magnitude * 2/5 (benign-leaning), else
3/5 + magnitude * 2/5 (malignant-leaning). -/
def severityDraw (coin magnitude : ℚ) : ℚ :=
  if coin < 1/2 then magnitude * (2/5) else 3/5 + magnitude * (2/5)

/-- SignUp.jsx lines 459-477, one loop body: features whose statistics
miss min or max get 0; otherwise the severity is jittered by
(draw - 1/2) * 1/10, clamped into [0, 1], interpolated between min and
max, and display-rounded. -/
def variedValue (severity jitterDraw : ℚ) (stat : Option FeatStat) : ℚ :=
  match stat with
  | none => 0
  | some st =>
    match st.min, st.max with
    | some mn, some mx =>
        let jitter := (jitterDraw - 1/2) * (1/10)
        let s := min 1 (max 0 (severity + jitter))
        qDisplayRound (mn + s * (mx - mn))
    | _, _ => 0

/-- SignUp.jsx lines 440-480, autoFillRealisticVaried: return unchanged
when no features are loaded; report an error (changing nothing else) when
the feature ranges are empty; otherwise clear the error and the old
prediction and replace the patient record with freshly sampled values.
The selected model and the loaded statistics are never written. -/
def autoFillRealisticVaried (coin magnitude : ℚ) (jit : ℕ → ℚ)
    (st : PredictPageState) : PredictPageState :=
  if st.features = [] then st
  else if st.featureRanges = [] then
    { st with errorMsg := "Feature ranges not loaded. Check /feature-ranges in FastAPI." }
  else
    let severity := severityDraw coin magnitude
    { st with
        errorMsg := ""
        prediction := none
        patientData := st.features.enum.map fun p =>
          (p.2, variedValue severity (jit p.1) (lookupStat st.featureRanges p.2)) }

/-- A Predict page state with features loaded but an empty feature-ranges
object, and a stale prediction from an earlier run. -/
def c7state : PredictPageState :=
  { features := ["radius_mean"]
    featureRanges := []
    selectedModelId := some "random_forest"
    patientData := [("radius_mean", 14)]
    prediction := some { prediction := 1, probabilities := [0, 1] }
    errorMsg := "" }

/-! Distribution-based fill: autoFillFromDistribution of src/unnamed/
part_000, lines 107-146. The source computes with transcendental
functions, so this part of the embedding lives over the reals, with the
two uniform draws injected. -/

/-- Per-feature summary statistics over the reals. -/
structure FeatStatR where
  mean : Option ℝ := none
  std : Option ℝ := none
  min : Option ℝ := none
  max : Option ℝ := none

/-- Lines 126-128: the Box-Muller standard-normal variate of two uniform
draws, sqrt(-2 ln u1) * cos(2 pi u2). -/
noncomputable def boxMuller (u1 u2 : ℝ) : ℝ :=
  Real.sqrt (-2 * Real.log u1) * Real.cos (2 * Real.pi * u2)

/-- Lines 132-134: clamp against the observed min (when known) first,
then against the observed max (when known). -/
noncomputable def clampToRange (s : FeatStatR) (v : ℝ) : ℝ :=
  let v1 := match s.min with | some mn => max mn v | none => v
  match s.max with | some mx => min mx v1 | none => v1

/-- JavaScript toFixed(d) rounding over the reals: the integer n with
n / 10 ^ d closest to x, ties toward the larger n. -/
noncomputable def toFixedJs (d : ℕ) (x : ℝ) : ℝ := (⌊x * 10 ^ d + 1/2⌋ : ℝ) / 10 ^ d

/-- Lines 137-140: display rounding to 4 decimal places below magnitude
10, else 2. -/
noncomputable def displayRoundJs (v : ℝ) : ℝ :=
  if |v| < 10 then toFixedJs 4 v else toFixedJs 2 v

/-- Lines 117-141, one loop body of autoFillFromDistribution: a feature
missing mean or std gets exactly 0; otherwise the stored value is the
display-rounded clamp of mean + z0 * std. -/
noncomputable def distFillValue (u1 u2 : ℝ) (s : FeatStatR) : ℝ :=
  match s.mean, s.std with
  | some m, some sd => displayRoundJs (clampToRange s (m + boxMuller u1 u2 * sd))
  | _, _ => 0

/-- Statistics on which the display rounding pushes the stored value below
the known minimum: a tiny mean equal to the minimum. -/
noncomputable def c3stat : FeatStatR :=
  { mean := some (1/25000), std := some 1, min := some (1/25000), max := some 1 }

end Dashboard

namespace Dashboard

/-- C1: for every confusion-count record with all four counts present, the
derived rates are recall = tp/(tp+fn), specificity = tn/(tn+fp) and
fnr = fn/(fn+tp), each null exactly when its denominator is zero: no
division by zero is performed and no default rate is substituted. -/
theorem c1_derived_rates (tn fp fn tp : ℚ) :
    recallOf { tn := some tn, fp := some fp, fn := some fn, tp := some tp } =
      (if tp + fn = 0 then none else some (tp / (tp + fn))) ∧
    specificityOf { tn := some tn, fp := some fp, fn := some fn, tp := some tp } =
      (if tn + fp = 0 then none else some (tn / (tn + fp))) ∧
    fnRateOf { tn := some tn, fp := some fp, fn := some fn, tp := some tp } =
      (if fn + tp = 0 then none else some (fn / (fn + tp))) := by
  refine ⟨?_, ?_, ?_⟩ <;> rfl

/-- Severity of a present, nonnegative rate: the three branches of the
ternary chain in Overview.jsx line 165. -/
theorem fnSeverity_some (q : ℚ) (hq : 0 ≤ q) :
    (fnSeverity (some q) = "safe" ↔ q = 0) ∧
    (fnSeverity (some q) = "warn" ↔ 0 < q ∧ q ≤ 1/50) ∧
    (fnSeverity (some q) = "bad" ↔ 1/50 < q) ∧
    fnSeverity (some q) ≠ "unknown" := by
  have hred : fnSeverity (some q) =
      if q = 0 then "safe" else if q ≤ 1/50 then "warn" else "bad" := rfl
  rw [hred]
  split_ifs with h1 h2
  · subst h1
    refine ⟨⟨fun _ => rfl, fun _ => rfl⟩, ?_, ?_, by decide⟩
    · exact ⟨fun h => absurd h (by decide), fun h => absurd h.1 (lt_irrefl 0)⟩
    · exact ⟨fun h => absurd h (by decide), fun h => absurd h (by norm_num)⟩
  · refine ⟨⟨fun h => absurd h (by decide), fun h => absurd h h1⟩, ?_, ?_, by decide⟩
    · exact ⟨fun _ => ⟨lt_of_le_of_ne hq (Ne.symm h1), h2⟩, fun _ => rfl⟩
    · exact ⟨fun h => absurd h (by decide), fun h => absurd h (not_lt.mpr h2)⟩
  · refine ⟨⟨fun h => absurd h (by decide), fun h => absurd h h1⟩, ?_, ?_, by decide⟩
    · exact ⟨fun h => absurd h (by decide), fun h => absurd h.2 h2⟩
    · exact ⟨fun _ => lt_of_not_le h2, fun _ => rfl⟩

/-- C6: the false-negative severity classification on rates derived from
natural confusion counts is exactly: safe iff fnr = 0, warn iff
0 < fnr ≤ 1/50, bad iff fnr > 1/50, unknown iff fnr is null; and the
counts tn 80, fp 5, fn 2, tp 33 yield fnr = 2/35, classified bad. -/
theorem c6_severity_classification (fn tp : ℕ) :
    ((fnSeverity (fnRateN fn tp) = "safe" ↔ fnRateN fn tp = some 0) ∧
     (fnSeverity (fnRateN fn tp) = "warn" ↔
        ∃ q, fnRateN fn tp = some q ∧ 0 < q ∧ q ≤ 1/50) ∧
     (fnSeverity (fnRateN fn tp) = "bad" ↔
        ∃ q, fnRateN fn tp = some q ∧ 1/50 < q) ∧
     (fnSeverity (fnRateN fn tp) = "unknown" ↔ fnRateN fn tp = none)) ∧
    fnRateOf (mkCounts 80 5 2 33) = some (2/35) ∧
    fnSeverity (fnRateOf (mkCounts 80 5 2 33)) = "bad" := by
  have hex : fnRateOf (mkCounts 80 5 2 33) = some (2/35) := by
    unfold fnRateOf mkCounts
    norm_num
  refine ⟨?_, hex, ?_⟩
  · by_cases hd : ((fn : ℚ) + tp = 0)
    · have hnone : fnRateN fn tp = none := by
        unfold fnRateN fnRateOf
        simp [hd]
      rw [hnone]
      refine ⟨?_, ?_, ?_, by simp [fnSeverity]⟩
      · simp [fnSeverity]
      · simp [fnSeverity]
      · simp [fnSeverity]
    · set r : ℚ := (fn : ℚ) / ((fn : ℚ) + tp) with hr
      have hsome : fnRateN fn tp = some r := by
        unfold fnRateN fnRateOf
        simp [hd]
      have hnn : 0 ≤ r := div_nonneg (by positivity) (by positivity)
      obtain ⟨hsafe, hwarn, hbad, hunk⟩ := fnSeverity_some r hnn
      rw [hsome]
      refine ⟨?_, ?_, ?_, ?_⟩
      · rw [hsafe]; simp
      · rw [hwarn]
        constructor
        · intro h; exact ⟨r, rfl, h⟩
        · rintro ⟨q, hq, h0, h50⟩
          rw [Option.some.injEq] at hq
          exact ⟨hq ▸ h0, hq ▸ h50⟩
      · rw [hbad]
        constructor
        · intro h; exact ⟨r, rfl, h⟩
        · rintro ⟨q, hq, h50⟩
          rw [Option.some.injEq] at hq
          exact hq ▸ h50
      · simp [hunk]
  · rw [hex]
    have := ((fnSeverity_some (2/35) (by norm_num)).2.2.1).mpr (by norm_num)
    exact this

/-- C8: for all confusion counts with tp + fn > 0 and tn + fp > 0, the
derived recall and specificity are defined and lie in the unit interval,
and recall + fnr = 1 exactly over exact arithmetic. -/
theorem c8_rate_algebra (tn fp fn tp : ℕ)
    (h1 : 0 < tp + fn) (h2 : 0 < tn + fp) :
    ∃ r s f : ℚ,
      recallOf (mkCounts tn fp fn tp) = some r ∧
      specificityOf (mkCounts tn fp fn tp) = some s ∧
      fnRateOf (mkCounts tn fp fn tp) = some f ∧
      0 ≤ r ∧ r ≤ 1 ∧ 0 ≤ s ∧ s ≤ 1 ∧ r + f = 1 := by
  have hd1 : ((tp : ℚ) + fn) ≠ 0 := by
    have : (0 : ℚ) < (tp : ℚ) + fn := by exact_mod_cast h1
    exact ne_of_gt this
  have hd1' : (0 : ℚ) < (tp : ℚ) + fn := by exact_mod_cast h1
  have hd2 : ((tn : ℚ) + fp) ≠ 0 := by
    have : (0 : ℚ) < (tn : ℚ) + fp := by exact_mod_cast h2
    exact ne_of_gt this
  have hd2' : (0 : ℚ) < (tn : ℚ) + fp := by exact_mod_cast h2
  have hd3 : ((fn : ℚ) + tp) ≠ 0 := by
    rw [add_comm]; exact hd1
  refine ⟨(tp : ℚ) / ((tp : ℚ) + fn), (tn : ℚ) / ((tn : ℚ) + fp),
      (fn : ℚ) / ((fn : ℚ) + tp), ?_, ?_, ?_, ?_, ?_, ?_, ?_, ?_⟩
  · simp [recallOf, mkCounts, hd1]
  · simp [specificityOf, mkCounts, hd2]
  · simp [fnRateOf, mkCounts, hd3]
  · exact div_nonneg (by positivity) (by positivity)
  · exact (div_le_one hd1').mpr (by linarith [Nat.cast_nonneg (α := ℚ) fn])
  · exact div_nonneg (by positivity) (by positivity)
  · exact (div_le_one hd2').mpr (by linarith [Nat.cast_nonneg (α := ℚ) fp])
  · rw [add_comm (fn : ℚ) (tp : ℚ), div_add_div_same, div_self hd1]

/-- Witness for C8 at the spec's end-to-end example counts. -/
theorem c8_rate_algebra_witness :
    ∃ r s f : ℚ,
      recallOf (mkCounts 80 5 2 33) = some r ∧
      specificityOf (mkCounts 80 5 2 33) = some s ∧
      fnRateOf (mkCounts 80 5 2 33) = some f ∧
      0 ≤ r ∧ r ≤ 1 ∧ 0 ≤ s ∧ s ≤ 1 ∧ r + f = 1 :=
  c8_rate_algebra 80 5 2 33 (by decide) (by decide)

/-- C2 counterexample: on a concrete metrics object the model the Overview
page headlines in its Recommended model card (the pickBestModel result,
ranked AUC descending then accuracy descending) differs from the model
policy (ii) of the specification (FNR ascending then AUC descending) would
recommend. -/
theorem c2_counterexample :
    (pickBestModel c2metrics).map BestModel.id = some "k-nn_(optimized)" ∧
    specRecommendedByFnr c2metrics = some "random_forest" ∧
    ("k-nn_(optimized)" : String) ≠ "random_forest" := by
  have hA : aucKey knnRec = 99/100 := by simp [aucKey, knnRec]
  have hB : aucKey rfRec = 19/20 := by simp [aucKey, rfRec]
  have hFA : fnrKey knnRec = 1/10 := by
    unfold fnrKey fnRateOf knnRec
    norm_num
  have hFB : fnrKey rfRec = 0 := by
    unfold fnrKey fnRateOf rfRec
    norm_num
  have helig : eligibleEntries c2metrics =
      [("k-nn_(optimized)", knnRec), ("random_forest", rfRec)] := rfl
  have hr1 : bestLe ("k-nn_(optimized)", knnRec) ("random_forest", rfRec) := by
    left
    rw [hA, hB]
    norm_num
  have hr2 : ¬ specPolicyIILe ("k-nn_(optimized)", knnRec) ("random_forest", rfRec) := by
    unfold specPolicyIILe
    rw [hFA, hFB]
    push_neg
    constructor
    · norm_num
    · intro h; exact absurd h (by norm_num)
  have hsort1 : List.insertionSort bestLe
      [("k-nn_(optimized)", knnRec), ("random_forest", rfRec)] =
      [("k-nn_(optimized)", knnRec), ("random_forest", rfRec)] := by
    simp only [List.insertionSort, List.orderedInsert]
    rw [if_pos hr1]
  have hsort2 : List.insertionSort specPolicyIILe
      [("k-nn_(optimized)", knnRec), ("random_forest", rfRec)] =
      [("random_forest", rfRec), ("k-nn_(optimized)", knnRec)] := by
    simp only [List.insertionSort, List.orderedInsert]
    rw [if_neg hr2]
  refine ⟨?_, ?_, by decide⟩
  · unfold pickBestModel
    rw [helig, hsort1]
    rfl
  · unfold specRecommendedByFnr
    rw [helig, hsort2]
    rfl

/-- C2 amended: the model the Overview page shows in the Recommended model
card is the pickBestModel result, which is maximal under policy (i) (AUC
descending, tie-broken by accuracy descending) among the eligible deployed
records; no client-side FNR ranking exists — the Metrics page's
recommended row is simply the evaluation report's declared
recommended_model_id row (falling back to the first row). -/
theorem c2_recommended_policy :
    (∀ mo b, pickBestModel mo = some b →
        ∀ e ∈ eligibleEntries mo, bestLe (b.id, b.metrics) e) ∧
    (∀ rows rid r, rows.find? (fun x => x.model_id == rid) = some r →
        recommendedRow rows (some rid) = some r) := by
  constructor
  · intro mo b hb e he
    have hperm := List.perm_insertionSort bestLe (eligibleEntries mo)
    have hsorted := List.sorted_insertionSort bestLe (eligibleEntries mo)
    revert hb hperm hsorted
    cases hs : List.insertionSort bestLe (eligibleEntries mo) with
    | nil =>
      intro hb _ _
      exact absurd hb (by simp [pickBestModel, hs])
    | cons hd tl =>
      intro hb hperm hsorted
      have hpick : pickBestModel mo =
          some { id := hd.1, name := (deployedName hd.1).getD "", metrics := hd.2 } := by
        unfold pickBestModel
        rw [hs]
      rw [hpick] at hb
      injection hb with hb
      rw [← hb]
      show bestLe hd e
      have he2 : e ∈ hd :: tl := hperm.symm.subset (by simpa using he)
      rcases List.mem_cons.mp he2 with h | h
      · subst h
        exact (IsTotal.total (r := bestLe) e e).elim id id
      · exact (List.sorted_cons.mp hsorted).1 e h
  · intro rows rid r h
    unfold recommendedRow
    show (match List.find? (fun x => x.model_id == rid) rows with
          | some r => some r
          | none => rows.head?) = some r
    rw [h]

/-- C4: the access guard scenarios — a data_scientist session reaches
/metrics, a scientist session requesting /metrics is redirected to
/overview, an anonymous session requesting /predict is redirected to
/signin with /predict remembered, and a successful login with /predict
remembered navigates back to /predict. -/
theorem c4_access_guard_scenarios :
    protectedRoute ⟨some "token", some "data_scientist"⟩ "/metrics" = .render ∧
    protectedRoute ⟨some "token", some "scientist"⟩ "/metrics" = .redirectOverview ∧
    protectedRoute ⟨none, none⟩ "/predict" = .redirectSignin "/predict" ∧
    loginDest (some "/predict") = "/predict" := by
  refine ⟨?_, ?_, rfl, ?_⟩ <;> decide

/-- C9 counterexample: after a successful signup with /predict remembered
as the originally requested path, the session is navigated to /overview,
not to the remembered path. -/
theorem c9_counterexample :
    signupDest (some "/predict") = "/overview" ∧
    ("/overview" : String) ≠ "/predict" :=
  ⟨rfl, by decide⟩

/-- C9 amended: after a successful login the session navigates to the
remembered path, or to /overview when none (or an empty one) was
remembered; after a successful signup it always navigates to /overview. -/
theorem c9_post_auth_navigation (remembered : Option String) :
    loginDest none = "/overview" ∧
    loginDest (some "") = "/overview" ∧
    (∀ s, s ≠ "" → loginDest (some s) = s) ∧
    signupDest remembered = "/overview" := by
  refine ⟨rfl, by decide, ?_, rfl⟩
  intro s hs
  show (if s = "" then "/overview" else s) = s
  rw [if_neg hs]

/-- C10: an authenticated session whose role is neither scientist nor
data_scientist (a reserved or corrupted role) has the empty allow-list, so
every protected-route request — /overview included — redirects to
/overview and no protected view renders. -/
theorem c10_unknown_role_locked_out (token : String) (role : Option String)
    (hrole : ∀ s, role = some s → s ≠ "scientist" ∧ s ≠ "data_scientist")
    (path : String) :
    ROLE_ACCESS role = [] ∧
    protectedRoute ⟨some token, role⟩ path = .redirectOverview := by
  have h1 : role ≠ some "scientist" := fun h => (hrole _ h).1 rfl
  have h2 : role ≠ some "data_scientist" := fun h => (hrole _ h).2 rfl
  have hempty : ROLE_ACCESS role = [] := by
    unfold ROLE_ACCESS
    rw [if_neg h1, if_neg h2]
  refine ⟨hempty, ?_⟩
  unfold protectedRoute
  rw [hempty]
  rfl

/-- Witness for C10 at the reserved admin role requesting /overview. -/
theorem c10_unknown_role_locked_out_witness :
    ROLE_ACCESS (some "admin") = [] ∧
    protectedRoute ⟨some "t", some "admin"⟩ "/overview" = .redirectOverview :=
  c10_unknown_role_locked_out "t" (some "admin")
    (fun s h => by
      injection h with h
      subst h
      exact ⟨by decide, by decide⟩) "/overview"

/-- C5 counterexample: when the models feed alone fails, the Predict
page's bulk load is aborted wholesale — the catch branch runs with the
error and no feed's data is committed, instead of only that feed
defaulting to an empty mapping. -/
theorem c5_counterexample :
    (runPredictInit (.error "models fetch failed") (.ok ["radius_mean"]) (.ok [])
        (.ok []) (.ok []) (.ok [])).isAborted = true ∧
    runPredictInit (.error "models fetch failed") (.ok ["radius_mean"]) (.ok [])
        (.ok []) (.ok []) (.ok []) = .failed "models fetch failed" :=
  ⟨rfl, rfl⟩

/-- C5 amended: only the dataset-info and evaluation-table feeds of the
Predict load (and the monitoring feed of the Overview load) degrade
independently to empty defaults; a failure of models, features, metrics
or feature-ranges (or of dataset-info or metrics in the Overview load)
aborts that whole load. Model selection survives a missing evaluation
table but not a missing registry. -/
theorem c5_feed_degradation :
    (∀ m feat met ranges dsE evE,
        runPredictInit (.ok m) (.ok feat) (.ok met) (.ok ranges) dsE evE =
          .loaded
            { models := filterToDeployed m
              features := feat
              metrics := filterToDeployed met
              featureRanges := ranges
              datasetInfo := dsE.toOption.getD []
              evalTable := evE.toOption.getD []
              selectedModelId := (filterToDeployed m).head?.map Prod.fst
              patientData := feat.map fun f => (f, 0)
              errorMsg := "" }) ∧
    (∀ e feat met ranges dsE evE,
        runPredictInit (.error e) feat met ranges dsE evE = .failed e) ∧
    (∀ m e met ranges dsE evE,
        runPredictInit (.ok m) (.error e) met ranges dsE evE = .failed e) ∧
    (∀ m feat e ranges dsE evE,
        runPredictInit (.ok m) (.ok feat) (.error e) ranges dsE evE = .failed e) ∧
    (∀ m feat met e dsE evE,
        runPredictInit (.ok m) (.ok feat) (.ok met) (.error e) dsE evE = .failed e) ∧
    (∀ ds met monE, runOverviewLoad (.ok ds) (.ok met) monE = .loaded ds met monE.toOption) ∧
    (∀ e met monE, runOverviewLoad (.error e) met monE = .failed e) ∧
    (∀ ds e monE, runOverviewLoad (.ok ds) (.error e) monE = .failed e) := by
  refine ⟨fun m feat met ranges dsE evE => rfl,
    fun e feat met ranges dsE evE => ?_,
    fun m e met ranges dsE evE => ?_,
    fun m feat e ranges dsE evE => ?_,
    fun m feat met e dsE evE => rfl,
    fun ds met monE => rfl,
    fun e met monE => ?_,
    fun ds e monE => rfl⟩
  · cases feat <;> cases met <;> cases ranges <;> rfl
  · cases met <;> cases ranges <;> rfl
  · cases ranges <;> rfl
  · cases met <;> rfl

/-- C7 counterexample: invoking the severity-biased fill on a state with
no loaded features (or statistics) early-returns, leaving the previously
computed prediction in place instead of clearing it. -/
theorem c7_counterexample :
    (autoFillRealisticVaried 0 0 (fun _ => 0) c7state).prediction =
      some { prediction := 1, probabilities := [0, 1] } ∧
    some ({ prediction := 1, probabilities := [0, 1] } : Prediction) ≠
      (none : Option Prediction) :=
  ⟨rfl, fun h => Option.noConfusion h⟩

/-- C7 amended: when features and statistics are loaded, the
severity-biased fill clears the old prediction and leaves the selected
model id and the loaded statistics unchanged; on the guard paths (no
features, or no statistics) it leaves the prediction — and everything but
the error message — unchanged. -/
theorem c7_varied_fill_frame (coin magnitude : ℚ) (jit : ℕ → ℚ)
    (st : PredictPageState) :
    (st.features ≠ [] → st.featureRanges ≠ [] →
        (autoFillRealisticVaried coin magnitude jit st).prediction = none ∧
        (autoFillRealisticVaried coin magnitude jit st).selectedModelId =
          st.selectedModelId ∧
        (autoFillRealisticVaried coin magnitude jit st).featureRanges =
          st.featureRanges) ∧
    (st.features = [] ∨ st.featureRanges = [] →
        (autoFillRealisticVaried coin magnitude jit st).prediction = st.prediction ∧
        (autoFillRealisticVaried coin magnitude jit st).selectedModelId =
          st.selectedModelId ∧
        (autoFillRealisticVaried coin magnitude jit st).featureRanges =
          st.featureRanges ∧
        (autoFillRealisticVaried coin magnitude jit st).patientData =
          st.patientData) := by
  unfold autoFillRealisticVaried
  by_cases h1 : st.features = []
  · simp [h1]
  · by_cases h2 : st.featureRanges = []
    · simp [h1, h2]
    · simp [h1, h2]

/-- C3 counterexample: with u2 = 1/4 (so cos(2 pi u2) = 0 and z0 = 0) and
statistics whose mean and minimum are 1/25000, the clamped value is
1/25000 but the stored feature value is its 4-decimal rounding 0,
strictly below the known minimum — the fill does not set the value to the
clamped mean + z0 * std, and the stored result escapes [min, max]. -/
theorem c3_counterexample :
    distFillValue (1/2) (1/4) c3stat = 0 ∧
    ¬ ((1/25000 : ℝ) ≤ distFillValue (1/2) (1/4) c3stat) := by
  have hz : boxMuller (1/2) (1/4) = 0 := by
    unfold boxMuller
    rw [show (2 * Real.pi * (1/4) : ℝ) = Real.pi / 2 by ring,
      Real.cos_pi_div_two, mul_zero]
  have hval : (1/25000 : ℝ) + boxMuller (1/2) (1/4) * 1 = 1/25000 := by
    rw [hz]; ring
  have hclamp : clampToRange c3stat (1/25000 : ℝ) = 1/25000 := by
    show min 1 (max (1/25000 : ℝ) (1/25000)) = 1/25000
    rw [max_self]
    exact min_eq_right (by norm_num)
  have hfl : ⌊(9/10 : ℝ)⌋ = 0 :=
    Int.floor_eq_zero_iff.mpr ⟨by norm_num, by norm_num⟩
  have hround : displayRoundJs (1/25000 : ℝ) = 0 := by
    unfold displayRoundJs
    rw [if_pos (by rw [abs_of_nonneg (by norm_num : (0:ℝ) ≤ 1/25000)]; norm_num)]
    unfold toFixedJs
    rw [show (1/25000 : ℝ) * 10 ^ 4 + 1/2 = 9/10 by norm_num, hfl]
    norm_num
  have hmain : distFillValue (1/2) (1/4) c3stat = 0 := by
    show displayRoundJs
      (clampToRange c3stat ((1/25000 : ℝ) + boxMuller (1/2) (1/4) * 1)) = 0
    rw [hval, hclamp, hround]
  exact ⟨hmain, by rw [hmain]; norm_num⟩

/-- C3 amended: for every feature with known mean and std, the
distribution fill stores the display-rounded clamp of mean + z0 * std
(z0 the Box-Muller variate of the two injected uniform draws); the clamp
result itself lies within [min, max] whenever both bounds are known and
ordered, though the stored rounded value may leave that range; features
missing mean or std are set to exactly 0. -/
theorem c3_gaussian_fill (u1 u2 : ℝ) (s : FeatStatR) :
    (∀ m sd, s.mean = some m → s.std = some sd →
        distFillValue u1 u2 s =
          displayRoundJs (clampToRange s (m + boxMuller u1 u2 * sd)) ∧
        (∀ mn mx, s.min = some mn → s.max = some mx → mn ≤ mx →
            mn ≤ clampToRange s (m + boxMuller u1 u2 * sd) ∧
            clampToRange s (m + boxMuller u1 u2 * sd) ≤ mx)) ∧
    (s.mean = none ∨ s.std = none → distFillValue u1 u2 s = 0) := by
  constructor
  · intro m sd hm hsd
    constructor
    · unfold distFillValue
      rw [hm, hsd]
    · intro mn mx hmn hmx hle
      have hcl : clampToRange s (m + boxMuller u1 u2 * sd) =
          min mx (max mn (m + boxMuller u1 u2 * sd)) := by
        unfold clampToRange
        rw [hmn, hmx]
      rw [hcl]
      exact ⟨le_min hle (le_max_left _ _), min_le_left _ _⟩
  · intro h
    unfold distFillValue
    rcases h with h | h
    · rw [h]
    · rw [h]
      cases hm : s.mean <;> rfl

end Dashboard
